import Mathlib

/-!
Verification of the scroll-progress coordination core of the portfolio
repository: the Progress Store (src/app/lib/scrollProgress.ts), the fade
composition utilities (src/app/components/TypewriterText.tsx), and the
local range-mapping helper in MoonReveal (src/app/components/MoonReveal.tsx).

JavaScript numbers are modelled as exact rationals; the arithmetic in all
claims is linear, so no floating-point subtlety is involved.
-/

/-- Shallow embedding of `mapRange` (identical copies live at
src/app/lib/scrollProgress.ts lines 61-71 and
src/app/components/TypewriterText.tsx lines 250-260):

  if (inMax === inMin) return outMin;
  const mapped = ((value - inMin) / (inMax - inMin)) * (outMax - outMin) + outMin;
  return Math.max(outMin, Math.min(outMax, mapped));

The JS defaults are outMin = 0, outMax = 1; callers that rely on the
defaults are embedded by passing 0 and 1 explicitly. -/
def mapRange (value inMin inMax outMin outMax : ℚ) : ℚ :=
  if inMax = inMin then outMin
  else
    let mapped := ((value - inMin) / (inMax - inMin)) * (outMax - outMin) + outMin
    max outMin (min outMax mapped)

/-- Shallow embedding of `calculateFadeOut`
(src/app/components/TypewriterText.tsx lines 266-272):

  return Math.max(0, 1 - mapRange(otherSectionProgress, fadeStart, fadeEnd));

`mapRange` is called with its default output range 0..1. -/
def calculateFadeOut (otherSectionProgress fadeStart fadeEnd : ℚ) : ℚ :=
  max 0 (1 - mapRange otherSectionProgress fadeStart fadeEnd 0 1)

/-- Shallow embedding of `calculateFadeIn`
(src/app/components/TypewriterText.tsx lines 278-284):

  return mapRange(progress, fadeStart, fadeEnd);

`mapRange` is called with its default output range 0..1. -/
def calculateFadeIn (progress fadeStart fadeEnd : ℚ) : ℚ :=
  mapRange progress fadeStart fadeEnd 0 1

/-- The fade-out window of `SECTION3_TIMING`
(src/app/components/TypewriterText.tsx lines 176-179). The `stop` field
embeds the source field `end`, which is a Lean keyword:

  fadeOut: { start: 0, end: 0.25 }
-/
structure FadeOutWindow where
  start : ℚ
  stop : ℚ
deriving DecidableEq

/-- `SECTION3_TIMING.fadeOut` from src/app/components/TypewriterText.tsx. -/
def SECTION3_TIMING_fadeOut : FadeOutWindow :=
  ⟨0, 0.25⟩

/-- Shallow embedding of the locally redefined `mapRange` helper inside the
MoonReveal scroll handler (src/app/components/MoonReveal.tsx lines 250-251):

  const mapRange = (p: number, min: number, max: number) =>
    Math.max(0, Math.min(1, (p - min) / (max - min)));

The source parameter names `min` and `max` clash with the Lean order
operations, so they are rendered `pMin` and `pMax`. -/
def mapRangeLocal (p pMin pMax : ℚ) : ℚ :=
  max 0 (min 1 ((p - pMin) / (pMax - pMin)))

/-- The module-level state record of the Progress Store
(src/app/lib/scrollProgress.ts lines 6-10):

  interface ScrollProgressState { section2: number; section3: number; section4: number; }
-/
structure ScrollProgressState where
  section2 : ℚ
  section3 : ℚ
  section4 : ℚ
deriving DecidableEq

/-- State-passing model of the Progress Store module
(src/app/lib/scrollProgress.ts). `globalState` is the mutable module
variable; `stateRef` models the identity of the object `globalState`
currently points to (each `{ ...globalState, ... }` spread allocates a
fresh object, modelled by incrementing the counter); `notifyCount` counts
the invocations of `notifyListeners` (each of which synchronously calls
every subscribed listener once). -/
structure StoreModel where
  globalState : ScrollProgressState
  stateRef : ℕ
  notifyCount : ℕ
deriving DecidableEq

/-- The initial module state: `globalState` starts with every section at 0
(src/app/lib/scrollProgress.ts lines 12-16). -/
def initialStore : StoreModel :=
  ⟨⟨0, 0, 0⟩, 0, 0⟩

/-- `getSnapshot` (src/app/lib/scrollProgress.ts lines 29-31) returns the
current `globalState` object; paired with `stateRef`, which models which
object reference the caller receives. -/
def getSnapshot (s : StoreModel) : ScrollProgressState × ℕ :=
  (s.globalState, s.stateRef)

/-- Shallow embedding of `updateSection2Progress`
(src/app/lib/scrollProgress.ts lines 34-39):

  if (globalState.section2 !== progress) \x7b
    globalState = \x7b ...globalState, section2: progress \x7d;
    notifyListeners();
  \x7d
-/
def updateSection2Progress (progress : ℚ) (s : StoreModel) : StoreModel :=
  if s.globalState.section2 ≠ progress then
    { globalState := { s.globalState with section2 := progress },
      stateRef := s.stateRef + 1,
      notifyCount := s.notifyCount + 1 }
  else s

/-- Shallow embedding of `updateSection3Progress`
(src/app/lib/scrollProgress.ts lines 41-46), same shape as
`updateSection2Progress` but for the `section3` key. -/
def updateSection3Progress (progress : ℚ) (s : StoreModel) : StoreModel :=
  if s.globalState.section3 ≠ progress then
    { globalState := { s.globalState with section3 := progress },
      stateRef := s.stateRef + 1,
      notifyCount := s.notifyCount + 1 }
  else s

/-- Shallow embedding of `updateSection4Progress`
(src/app/lib/scrollProgress.ts lines 48-53), same shape as
`updateSection2Progress` but for the `section4` key. -/
def updateSection4Progress (progress : ℚ) (s : StoreModel) : StoreModel :=
  if s.globalState.section4 ≠ progress then
    { globalState := { s.globalState with section4 := progress },
      stateRef := s.stateRef + 1,
      notifyCount := s.notifyCount + 1 }
  else s

/-- The three section keys of the Progress Store. -/
inductive SectionKey where
  | section2
  | section3
  | section4
deriving DecidableEq

/-- Dispatch from a section key to its update function: the Progress Store
exposes exactly one update function per section key. -/
def updateSection : SectionKey → ℚ → StoreModel → StoreModel
  | .section2 => updateSection2Progress
  | .section3 => updateSection3Progress
  | .section4 => updateSection4Progress

/-- Read one section key out of a state record. -/
def sectionValue : SectionKey → ScrollProgressState → ℚ
  | .section2 => ScrollProgressState.section2
  | .section3 => ScrollProgressState.section3
  | .section4 => ScrollProgressState.section4

-- Sanity checks against the worked scenarios of the specification.
example : mapRange 0.3 0.2 0.5 0 1 = 1/3 := by norm_num [mapRange]
example : calculateFadeOut 0.6 0.1 0.4 = 0 := by norm_num [calculateFadeOut, mapRange]
example : calculateFadeIn 0.05 0.1 0.4 = 0 := by norm_num [calculateFadeIn, mapRange]

/-! ### Helper lemmas about the clamped linear remap -/

lemma min_le_mapRange (v a b lo hi : ℚ) : min lo hi ≤ mapRange v a b lo hi := by
  unfold mapRange
  split
  · exact min_le_left lo hi
  · exact (min_le_left lo hi).trans (le_max_left lo _)

lemma mapRange_le_max (v a b lo hi : ℚ) : mapRange v a b lo hi ≤ max lo hi := by
  unfold mapRange
  split
  · exact le_max_left lo hi
  · exact max_le (le_max_left lo hi) ((min_le_left hi _).trans (le_max_right lo hi))

lemma mapRange_of_ne (v a b lo hi : ℚ) (h : b ≠ a) :
    mapRange v a b lo hi = max lo (min hi ((v - a) / (b - a) * (hi - lo) + lo)) := by
  unfold mapRange
  rw [if_neg h]

lemma mapRange01_of_ne (v a b : ℚ) (h : b ≠ a) :
    mapRange v a b 0 1 = max 0 (min 1 ((v - a) / (b - a))) := by
  rw [mapRange_of_ne v a b 0 1 h]
  norm_num

lemma mapRange01_nonneg (v a b : ℚ) : 0 ≤ mapRange v a b 0 1 := by
  have h := min_le_mapRange v a b 0 1
  simpa using h

lemma mapRange01_le_one (v a b : ℚ) : mapRange v a b 0 1 ≤ 1 := by
  have h := mapRange_le_max v a b 0 1
  simpa using h

lemma calculateFadeOut_eq_one_sub (p s e : ℚ) :
    calculateFadeOut p s e = 1 - mapRange p s e 0 1 := by
  have h := mapRange01_le_one p s e
  unfold calculateFadeOut
  exact max_eq_right (by linarith)

/-! ### The claims -/

/-- Claim C1: for every rational p, s, e, the fade-in and fade-out
multipliers are complementary:
calculateFadeIn p s e + calculateFadeOut p s e = 1, including the
degenerate window s = e and inverted windows s > e. -/
theorem fadeIn_add_fadeOut_eq_one (p s e : ℚ) :
    calculateFadeIn p s e + calculateFadeOut p s e = 1 := by
  rw [calculateFadeOut_eq_one_sub]
  unfold calculateFadeIn
  ring

/-- Claim C4: for every value, inMin, inMax, outMin, outMax, the result of
mapRange lies within the closed interval from min outMin outMax to
max outMin outMax. -/
theorem mapRange_within_output_range (value inMin inMax outMin outMax : ℚ) :
    min outMin outMax ≤ mapRange value inMin inMax outMin outMax ∧
      mapRange value inMin inMax outMin outMax ≤ max outMin outMax :=
  ⟨min_le_mapRange value inMin inMax outMin outMax,
   mapRange_le_max value inMin inMax outMin outMax⟩

/-- Claim C6: when inMax > inMin, mapRange is non-decreasing in its value
argument, for every output range. -/
theorem mapRange_nondecreasing (inMin inMax outMin outMax x1 x2 : ℚ)
    (hin : inMin < inMax) (hx : x1 ≤ x2) :
    mapRange x1 inMin inMax outMin outMax ≤ mapRange x2 inMin inMax outMin outMax := by
  have hne : inMax ≠ inMin := hin.ne'
  rw [mapRange_of_ne x1 inMin inMax outMin outMax hne,
      mapRange_of_ne x2 inMin inMax outMin outMax hne]
  rcases le_total outMin outMax with hout | hout
  · apply max_le_max le_rfl
    apply min_le_min le_rfl
    have hden : (0 : ℚ) < inMax - inMin := sub_pos.mpr hin
    have hdiv : (x1 - inMin) / (inMax - inMin) ≤ (x2 - inMin) / (inMax - inMin) :=
      (div_le_div_iff_of_pos_right hden).mpr (by linarith)
    have hm := mul_le_mul_of_nonneg_right hdiv (by linarith : (0 : ℚ) ≤ outMax - outMin)
    linarith
  · have hconst : ∀ m : ℚ, max outMin (min outMax m) = outMin :=
      fun m => max_eq_left ((min_le_left outMax m).trans hout)
    rw [hconst, hconst]

/-- Claim C6 witness: the monotonicity theorem applied at a concrete input. -/
theorem mapRange_nondecreasing_witness :
    mapRange 0 0 1 0 1 ≤ mapRange 1 0 1 0 1 :=
  mapRange_nondecreasing 0 1 0 1 0 1 (by norm_num) (by norm_num)

/-- Claim C7: mapRange, calculateFadeIn and calculateFadeOut are total
functions (total by construction in this embedding); in the degenerate
case inMax = inMin, mapRange returns outMin instead of dividing by zero,
and every input, out-of-range included, yields a result clamped to the
output range rather than being rejected. -/
theorem fade_utilities_total_and_clamped :
    (∀ value inMin outMin outMax : ℚ,
      mapRange value inMin inMin outMin outMax = outMin) ∧
    (∀ value inMin inMax outMin outMax : ℚ,
      min outMin outMax ≤ mapRange value inMin inMax outMin outMax ∧
        mapRange value inMin inMax outMin outMax ≤ max outMin outMax) ∧
    (∀ p s e : ℚ, 0 ≤ calculateFadeIn p s e ∧ calculateFadeIn p s e ≤ 1) ∧
    (∀ p s e : ℚ, 0 ≤ calculateFadeOut p s e ∧ calculateFadeOut p s e ≤ 1) := by
  refine ⟨fun value inMin outMin outMax => ?_,
          fun value inMin inMax outMin outMax =>
            ⟨min_le_mapRange value inMin inMax outMin outMax,
             mapRange_le_max value inMin inMax outMin outMax⟩,
          fun p s e => ⟨mapRange01_nonneg p s e, mapRange01_le_one p s e⟩,
          fun p s e => ⟨le_max_left 0 _, ?_⟩⟩
  · unfold mapRange
    rw [if_pos rfl]
  · have h := mapRange01_nonneg p s e
    unfold calculateFadeOut
    exact max_le (by norm_num) (by linarith)

/-! ### Fade-out window behaviour helpers -/

lemma calculateFadeOut_of_le_start {p s e : ℚ} (hse : s < e) (hp : p ≤ s) :
    calculateFadeOut p s e = 1 := by
  rw [calculateFadeOut, mapRange01_of_ne p s e hse.ne']
  have hdiv : (p - s) / (e - s) ≤ 0 :=
    div_nonpos_iff.mpr (Or.inr ⟨by linarith, by linarith⟩)
  rw [min_eq_right (hdiv.trans zero_le_one), max_eq_left hdiv]
  norm_num

lemma calculateFadeOut_of_end_le {p s e : ℚ} (hse : s < e) (hp : e ≤ p) :
    calculateFadeOut p s e = 0 := by
  rw [calculateFadeOut, mapRange01_of_ne p s e hse.ne']
  have hdiv : 1 ≤ (p - s) / (e - s) :=
    (one_le_div (by linarith)).mpr (by linarith)
  rw [min_eq_left hdiv]
  norm_num

lemma calculateFadeOut_of_between {p s e : ℚ} (hs : s < p) (he : p < e) :
    calculateFadeOut p s e = 1 - (p - s) / (e - s) := by
  have hse : s < e := hs.trans he
  rw [calculateFadeOut, mapRange01_of_ne p s e hse.ne']
  have hpos : 0 < (p - s) / (e - s) := div_pos (by linarith) (by linarith)
  have hlt : (p - s) / (e - s) < 1 := (div_lt_one (by linarith)).mpr (by linarith)
  rw [min_eq_right hlt.le, max_eq_right hpos.le, max_eq_right (by linarith)]

/-- Claim C3: calculateFadeOut equals 1 - mapRange over the default output
range for all inputs; for a window with start < end it is 1 at or before
the start, 0 at or after the end, and linear strictly between; with the
section-3 fade-out window (start 0, end 0.25) keyed on the section-4
progress, the multiplier is 1 while that progress is 0 and 0 once it
reaches 0.25. -/
theorem calculateFadeOut_spec :
    (∀ p s e : ℚ, calculateFadeOut p s e = 1 - mapRange p s e 0 1) ∧
    (∀ p s e : ℚ, s < e →
      (p ≤ s → calculateFadeOut p s e = 1) ∧
      (e ≤ p → calculateFadeOut p s e = 0) ∧
      (s < p → p < e → calculateFadeOut p s e = 1 - (p - s) / (e - s))) ∧
    (SECTION3_TIMING_fadeOut.start = 0 ∧ SECTION3_TIMING_fadeOut.stop = 0.25 ∧
      calculateFadeOut 0 SECTION3_TIMING_fadeOut.start SECTION3_TIMING_fadeOut.stop = 1 ∧
      ∀ q : ℚ, 0.25 ≤ q →
        calculateFadeOut q SECTION3_TIMING_fadeOut.start SECTION3_TIMING_fadeOut.stop = 0) := by
  refine ⟨calculateFadeOut_eq_one_sub,
          fun p s e hse =>
            ⟨calculateFadeOut_of_le_start hse,
             calculateFadeOut_of_end_le hse,
             fun hs he => calculateFadeOut_of_between hs he⟩,
          rfl, rfl, ?_, fun q hq => ?_⟩
  · exact calculateFadeOut_of_le_start (by norm_num [SECTION3_TIMING_fadeOut])
      (by norm_num [SECTION3_TIMING_fadeOut])
  · exact calculateFadeOut_of_end_le (by norm_num [SECTION3_TIMING_fadeOut])
      (by rw [show SECTION3_TIMING_fadeOut.stop = 0.25 from rfl]; exact_mod_cast hq)

/-- Claim C3 witness: the fade-out behaviour theorem applied at concrete
inputs, discharging the window hypotheses. -/
theorem calculateFadeOut_spec_witness :
    calculateFadeOut (1/8) 0 (1/4) = 1 - ((1/8 : ℚ) - 0) / (1/4 - 0) ∧
      calculateFadeOut (1/2) SECTION3_TIMING_fadeOut.start SECTION3_TIMING_fadeOut.stop = 0 :=
  ⟨(calculateFadeOut_spec.2.1 (1/8) 0 (1/4) (by norm_num)).2.2 (by norm_num) (by norm_num),
   calculateFadeOut_spec.2.2.2.2.2 (1/2) (by norm_num)⟩

/-- Claim C5 counterexample: with inMin = 0, inMax = 1, outMin = 1,
outMax = 0 (so inMin different from inMax), mapRange at the input-range
endpoint inMax returns 1, not the output endpoint outMax = 0: the final
clamp Math.max(outMin, ...) overrides the mapped value whenever
outMin > outMax. -/
theorem mapRange_boundary_counterexample :
    (0 : ℚ) ≠ 1 ∧ mapRange 1 0 1 1 0 ≠ 0 := by
  constructor
  · norm_num
  · norm_num [mapRange]

/-- Claim C5 amended: for inMin different from inMax, the input-range start
maps exactly to outMin unconditionally, and the input-range end maps
exactly to outMax provided outMin ≤ outMax (the clamp forces the value
outMin whenever outMin > outMax). -/
theorem mapRange_boundary_exact (inMin inMax outMin outMax : ℚ)
    (h : inMin ≠ inMax) :
    mapRange inMin inMin inMax outMin outMax = outMin ∧
      (outMin ≤ outMax → mapRange inMax inMin inMax outMin outMax = outMax) := by
  have hne : inMax ≠ inMin := h.symm
  constructor
  · rw [mapRange_of_ne inMin inMin inMax outMin outMax hne]
    have hz : (inMin - inMin) / (inMax - inMin) * (outMax - outMin) + outMin = outMin := by
      rw [sub_self, zero_div, zero_mul, zero_add]
    rw [hz]
    rcases le_total outMin outMax with hle | hle
    · rw [min_eq_right hle, max_self]
    · rw [min_eq_left hle, max_eq_left hle]
  · intro hout
    rw [mapRange_of_ne inMax inMin inMax outMin outMax hne]
    have hd : (inMax - inMin) / (inMax - inMin) = 1 :=
      div_self (sub_ne_zero.mpr hne)
    rw [hd, one_mul, sub_add_cancel, min_self, max_eq_right hout]

/-- Claim C5 witness: the amended boundary-exactness theorem applied at a
concrete input with its hypotheses discharged. -/
theorem mapRange_boundary_exact_witness :
    mapRange 0 0 1 2 5 = 2 ∧ mapRange 1 0 1 2 5 = 5 :=
  ⟨(mapRange_boundary_exact 0 1 2 5 (by norm_num)).1,
   (mapRange_boundary_exact 0 1 2 5 (by norm_num)).2 (by norm_num)⟩

/-- Claim C10: for inputs whose window endpoints differ, the local
mapRange helper inside the MoonReveal scroll handler agrees with the
library mapRange at its default output range 0..1 (the local copy omits
the guard for equal endpoints, so agreement is claimed only under that
precondition). -/
theorem mapRangeLocal_eq_mapRange (p pMin pMax : ℚ) (h : pMin ≠ pMax) :
    mapRangeLocal p pMin pMax = mapRange p pMin pMax 0 1 := by
  rw [mapRangeLocal, mapRange01_of_ne p pMin pMax h.symm]

/-- Claim C10 witness: the agreement theorem applied at a concrete input
with the distinct-endpoints hypothesis discharged. -/
theorem mapRangeLocal_eq_mapRange_witness :
    mapRangeLocal (1/2) 0 1 = mapRange (1/2) 0 1 0 1 :=
  mapRangeLocal_eq_mapRange (1/2) 0 1 (by norm_num)

/-! ### Progress Store claims -/

/-- Claim C2: for every section key and value, calling the update function
twice with the same value notifies listeners at most once: the second call
returns the store unchanged (state, reference and notification count), and
the two calls together perform at most one notification. -/
theorem updateSection_second_call_noop (k : SectionKey) (v : ℚ) (s : StoreModel) :
    updateSection k v (updateSection k v s) = updateSection k v s ∧
      (updateSection k v s).notifyCount ≤ s.notifyCount + 1 := by
  cases k
  case section2 =>
    constructor
    · show updateSection2Progress v (updateSection2Progress v s) = updateSection2Progress v s
      unfold updateSection2Progress
      by_cases h : s.globalState.section2 = v <;> simp [h]
    · show (updateSection2Progress v s).notifyCount ≤ s.notifyCount + 1
      unfold updateSection2Progress
      split <;> simp
  case section3 =>
    constructor
    · show updateSection3Progress v (updateSection3Progress v s) = updateSection3Progress v s
      unfold updateSection3Progress
      by_cases h : s.globalState.section3 = v <;> simp [h]
    · show (updateSection3Progress v s).notifyCount ≤ s.notifyCount + 1
      unfold updateSection3Progress
      split <;> simp
  case section4 =>
    constructor
    · show updateSection4Progress v (updateSection4Progress v s) = updateSection4Progress v s
      unfold updateSection4Progress
      by_cases h : s.globalState.section4 = v <;> simp [h]
    · show (updateSection4Progress v s).notifyCount ≤ s.notifyCount + 1
      unfold updateSection4Progress
      split <;> simp

/-- Claim C8: updating one section key changes only that key. Generically,
updateSection4Progress leaves section2 and section3 untouched (and
symmetrically for the other two update functions); concretely, starting
from the initial store where every section is 0, after
updateSection4Progress 0.5 the snapshot state has section4 = 0.5 while
section2 and section3 still hold their previous value 0. -/
theorem updateSection4_frame :
    (∀ v : ℚ, ∀ s : StoreModel,
      (updateSection4Progress v s).globalState.section2 = s.globalState.section2 ∧
        (updateSection4Progress v s).globalState.section3 = s.globalState.section3) ∧
    (∀ v : ℚ, ∀ s : StoreModel,
      (updateSection2Progress v s).globalState.section3 = s.globalState.section3 ∧
        (updateSection2Progress v s).globalState.section4 = s.globalState.section4) ∧
    (∀ v : ℚ, ∀ s : StoreModel,
      (updateSection3Progress v s).globalState.section2 = s.globalState.section2 ∧
        (updateSection3Progress v s).globalState.section4 = s.globalState.section4) ∧
    ((getSnapshot (updateSection4Progress 0.5 initialStore)).1.section4 = 0.5 ∧
      (getSnapshot (updateSection4Progress 0.5 initialStore)).1.section2 = 0 ∧
      (getSnapshot (updateSection4Progress 0.5 initialStore)).1.section3 = 0) := by
  refine ⟨fun v s => ?_, fun v s => ?_, fun v s => ?_, ?_⟩
  · unfold updateSection4Progress
    split <;> simp
  · unfold updateSection2Progress
    split <;> simp
  · unfold updateSection3Progress
    split <;> simp
  · refine ⟨?_, ?_, ?_⟩ <;>
      norm_num [getSnapshot, updateSection4Progress, initialStore]

lemma updateSection_noop_of_eq (k : SectionKey) (v : ℚ) (s : StoreModel)
    (h : sectionValue k s.globalState = v) : updateSection k v s = s := by
  cases k
  case section2 =>
    show updateSection2Progress v s = s
    have h2 : s.globalState.section2 = v := h
    unfold updateSection2Progress
    rw [if_neg (not_not_intro h2)]
  case section3 =>
    show updateSection3Progress v s = s
    have h2 : s.globalState.section3 = v := h
    unfold updateSection3Progress
    rw [if_neg (not_not_intro h2)]
  case section4 =>
    show updateSection4Progress v s = s
    have h2 : s.globalState.section4 = v := h
    unfold updateSection4Progress
    rw [if_neg (not_not_intro h2)]

lemma updateSection_stateRef_of_ne (k : SectionKey) (v : ℚ) (s : StoreModel)
    (h : sectionValue k s.globalState ≠ v) :
    (updateSection k v s).stateRef = s.stateRef + 1 := by
  cases k
  case section2 =>
    show (updateSection2Progress v s).stateRef = s.stateRef + 1
    have h2 : s.globalState.section2 ≠ v := h
    unfold updateSection2Progress
    rw [if_pos h2]
  case section3 =>
    show (updateSection3Progress v s).stateRef = s.stateRef + 1
    have h2 : s.globalState.section3 ≠ v := h
    unfold updateSection3Progress
    rw [if_pos h2]
  case section4 =>
    show (updateSection4Progress v s).stateRef = s.stateRef + 1
    have h2 : s.globalState.section4 ≠ v := h
    unfold updateSection4Progress
    rw [if_pos h2]

/-- Claim C9: getSnapshot hands out the current state object; its modelled
reference is unchanged exactly when no effective update happens (a call
with the already-stored value returns the store untouched, so snapshots
between updates are identical), and every effective update allocates a
fresh object, so the snapshot reference changes. -/
theorem getSnapshot_reference_stability (k : SectionKey) (v : ℚ) (s : StoreModel) :
    (sectionValue k s.globalState = v →
      updateSection k v s = s ∧
        getSnapshot (updateSection k v s) = getSnapshot s) ∧
    (sectionValue k s.globalState ≠ v →
      (getSnapshot (updateSection k v s)).2 = (getSnapshot s).2 + 1 ∧
        (getSnapshot (updateSection k v s)).2 ≠ (getSnapshot s).2) := by
  constructor
  · intro h
    have he := updateSection_noop_of_eq k v s h
    exact ⟨he, by rw [he]⟩
  · intro h
    have he := updateSection_stateRef_of_ne k v s h
    constructor
    · show (updateSection k v s).stateRef = s.stateRef + 1
      exact he
    · show (updateSection k v s).stateRef ≠ s.stateRef
      rw [he]
      omega

/-- Claim C9 witness: the reference-stability theorem applied at concrete
inputs, discharging both hypotheses. -/
theorem getSnapshot_reference_stability_witness :
    updateSection SectionKey.section2 0 initialStore = initialStore ∧
      (getSnapshot (updateSection SectionKey.section4 (1/2) initialStore)).2 ≠
        (getSnapshot initialStore).2 :=
  ⟨((getSnapshot_reference_stability SectionKey.section2 0 initialStore).1
      (by norm_num [sectionValue, initialStore])).1,
   ((getSnapshot_reference_stability SectionKey.section4 (1/2) initialStore).2
      (by norm_num [sectionValue, initialStore])).2⟩
